import Mathlib

/-!
Shallow embedding of the RAG assistant backend
(src/backend/pdf_processor.py, src/backend/embedding_generator.py,
src/backend/pinecone_manager.py, src/backend/assistant.py).

Texts are modelled as `List Char` (Python `str` is a sequence of code
points).  Machine integers do not overflow in any code path considered
(Python ints are unbounded), so `Nat` is used for indices; the one place
where Python computes a possibly-negative intermediate
(`start + chunk_size - 100` inside `max(start + chunk_size - 100, start)`)
is modelled with truncated subtraction, which gives the same value of the
`max` because `max (a - b) c = max (a -. b) c` whenever `c ≥ 0`.
External services (OpenAI embeddings, Pinecone, chat completion) are
modelled as injected oracles of type `Except String _`: `Except.error`
is the service call raising an exception with that message.
-/

/-- The natural-break characters of `chunk_text`
(`text[i] in ['\n', '.', '!', '?', ' ']`). -/
def isBreakChar (c : Char) : Bool :=
  c = '\n' || c = '.' || c = '!' || c = '?' || c = ' '

/-- Characters stripped by Python `str.strip()` (ASCII whitespace;
the source texts involved contain only these). -/
def isPyWhitespace (c : Char) : Bool :=
  c = ' ' || c = '\t' || c = '\n' || c = '\r' || c = '\x0b' || c = '\x0c'

/-- Python `s.strip()` on a list of characters. -/
def pyStrip (s : List Char) : List Char :=
  ((s.dropWhile isPyWhitespace).reverse.dropWhile isPyWhitespace).reverse

/-- Python slice `text[a:b]` for `0 ≤ a`, `0 ≤ b` (clamping at the ends,
empty when `b ≤ a`). -/
def pySlice (text : List Char) (a b : Nat) : List Char :=
  (text.take b).drop a

/-- The descending scan
`for i in range(e, lower, -1): if text[i] in breaks: end = i + 1; break`,
unrolled on the iteration count `k` (the wrapper `findBreak` passes
`k = e - lower`, the exact number of Python loop iterations; `i` takes the
values `e, e-1, …, lower+1`).  All call sites index within bounds, so the
out-of-range default `'\x00'` (not a break character) is never consulted. -/
def findBreakAux (text : List Char) : Nat → Nat → Option Nat
  | _, 0 => none
  | e, k + 1 =>
    if isBreakChar (text.getD e '\x00') then some e
    else findBreakAux text (e - 1) k

/-- The inner lookback loop of `chunk_text`:
`for i in range(end, max(start + chunk_size - 100, start), -1)`. -/
def findBreak (text : List Char) (lower e : Nat) : Option Nat :=
  findBreakAux text e (e - lower)

/-- The window end computed by one iteration of the `chunk_text` loop:
`end = start + chunk_size`, then, when `end < len(text)`, the backward
search for a natural break replaces `end` with `i + 1`. -/
def nextEnd (text : List Char) (csize start : Nat) : Nat :=
  if start + csize < text.length then
    match findBreak text (max (start + csize - 100) start) (start + csize) with
    | some i => i + 1
    | none => start + csize
  else start + csize

/-- The chunk emitted by one iteration: `text[start:end].strip()`. -/
def emitChunk (text : List Char) (csize start : Nat) : List Char :=
  pyStrip (pySlice text start (nextEnd text csize start))

/-- The next window start: `start = end - overlap if end < len(text) else end`. -/
def nextStart (text : List Char) (csize overlap start : Nat) : Nat :=
  if nextEnd text csize start < text.length then nextEnd text csize start - overlap
  else nextEnd text csize start

/-- The `while start < len(text)` loop of `chunk_text`, with explicit fuel:
the loop has no termination guarantee in the source (see the degenerate
`overlap ≥ chunk_size` analysis below), so it is embedded as a
fuel-indexed function that answers `none` when the iteration bound is
exhausted while the loop guard still holds. -/
def chunkLoop (text : List Char) (csize overlap : Nat) :
    Nat → Nat → List (List Char) → Option (List (List Char))
  | 0, start, acc => if start < text.length then none else some acc
  | fuel + 1, start, acc =>
    if start < text.length then
      chunkLoop text csize overlap fuel (nextStart text csize overlap start)
        (acc ++ [emitChunk text csize start])
    else some acc

/-- Model of `PDFProcessor.chunk_text(text, chunk_size, overlap)` run with the given
iteration budget.  `none` means the Python loop is still running after
`fuel` iterations. -/
def chunkTextFuel (fuel : Nat) (text : List Char) (csize overlap : Nat) :
    Option (List (List Char)) :=
  if text.length ≤ csize then some [text]
  else chunkLoop text csize overlap fuel 0 []

/-- The function `chunk_text` with an iteration budget sufficient for every terminating
run that advances at least one character per iteration. -/
def chunk_text (text : List Char) (csize overlap : Nat) :
    Option (List (List Char)) :=
  chunkTextFuel (text.length + 1) text csize overlap

/-- The Python loop terminates on this input: some finite iteration budget
makes it finish. -/
def chunkTerminates (text : List Char) (csize overlap : Nat) : Prop :=
  ∃ fuel, (chunkTextFuel fuel text csize overlap).isSome

/-- The start offsets visited by the `chunk_text` loop, one per emitted
chunk, under the given fuel. -/
def startsTrace (text : List Char) (csize overlap : Nat) :
    Nat → Nat → List Nat
  | 0, _ => []
  | fuel + 1, start =>
    if start < text.length then
      start :: startsTrace text csize overlap fuel
        (nextStart text csize overlap start)
    else []

/-! ## Chunker lemmas -/

theorem findBreakAux_bounds (text : List Char) :
    ∀ k e i, k ≤ e → findBreakAux text e k = some i → e - k < i ∧ i ≤ e := by
  intro k
  induction k with
  | zero =>
    intro e i _ h
    simp [findBreakAux] at h
  | succ k ih =>
    intro e i hke h
    rw [findBreakAux] at h
    by_cases hb : isBreakChar (text.getD e '\x00') = true
    · rw [if_pos hb] at h
      have hi : i = e := by
        have := Option.some.inj h
        omega
      omega
    · rw [if_neg hb] at h
      have := ih (e - 1) i (by omega) h
      omega

theorem findBreak_some (text : List Char) (lower e i : Nat)
    (h : findBreak text lower e = some i) : lower < i ∧ i ≤ e := by
  unfold findBreak at h
  by_cases hc : e ≤ lower
  · have h0 : e - lower = 0 := by omega
    rw [h0] at h
    simp [findBreakAux] at h
  · have hb := findBreakAux_bounds text (e - lower) e i (Nat.sub_le e lower) h
    omega

/-- With the default `chunk_size = 1000` the adjusted window end always
lies at least `start + 902`: a natural break found by the lookback is
strictly above `start + 900`, and the hard boundary is `start + 1000`. -/
theorem nextEnd_ge_default (text : List Char) (start : Nat) :
    start + 902 ≤ nextEnd text 1000 start := by
  unfold nextEnd
  by_cases h : start + 1000 < text.length
  · rw [if_pos h]
    cases hfb : findBreak text (max (start + 1000 - 100) start) (start + 1000) with
    | none =>
      show start + 902 ≤ start + 1000
      omega
    | some i =>
      have hb := findBreak_some _ _ _ _ hfb
      show start + 902 ≤ i + 1
      omega
  · rw [if_neg h]
    omega

theorem nextEnd_le (text : List Char) (csize start : Nat) :
    nextEnd text csize start ≤ start + csize + 1 := by
  unfold nextEnd
  by_cases h : start + csize < text.length
  · rw [if_pos h]
    cases hfb : findBreak text (max (start + csize - 100) start) (start + csize) with
    | none =>
      show start + csize ≤ start + csize + 1
      omega
    | some i =>
      have hb := findBreak_some _ _ _ _ hfb
      show i + 1 ≤ start + csize + 1
      omega
  · rw [if_neg h]
    omega

/-- With the default `(1000, 200)` configuration each loop iteration
strictly advances the window start (by at least 702 characters in fact). -/
theorem nextStart_gt_default (text : List Char) (start : Nat) :
    start < nextStart text 1000 200 start := by
  have h := nextEnd_ge_default text start
  unfold nextStart
  by_cases hc : nextEnd text 1000 start < text.length
  · rw [if_pos hc]
    omega
  · rw [if_neg hc]
    omega

theorem pyStrip_length_le (s : List Char) : (pyStrip s).length ≤ s.length := by
  unfold pyStrip
  have h1 := (List.dropWhile_sublist (l := s) isPyWhitespace).length_le
  have h2 := (List.dropWhile_sublist (l := (s.dropWhile isPyWhitespace).reverse)
    isPyWhitespace).length_le
  simp only [List.length_reverse] at h2 ⊢
  omega

theorem emitChunk_length_le (text : List Char) (csize start : Nat) :
    (emitChunk text csize start).length ≤ csize + 1 := by
  unfold emitChunk pySlice
  have h1 := pyStrip_length_le ((text.take (nextEnd text csize start)).drop start)
  have h2 : ((text.take (nextEnd text csize start)).drop start).length =
      min (nextEnd text csize start) text.length - start := by
    simp
  have h3 := nextEnd_le text csize start
  have h4 : min (nextEnd text csize start) text.length ≤ nextEnd text csize start :=
    min_le_left _ _
  omega

/-- If the window start strictly advances on every iteration, then a fuel
of `text.length - start` iterations is enough for the loop to finish. -/
theorem chunkLoop_total (text : List Char) (csize overlap : Nat)
    (hstep : ∀ s, s < text.length → s < nextStart text csize overlap s) :
    ∀ fuel s acc, text.length ≤ s + fuel →
      ∃ r, chunkLoop text csize overlap fuel s acc = some r := by
  intro fuel
  induction fuel with
  | zero =>
    intro s acc h
    refine ⟨acc, ?_⟩
    have hns : ¬ s < text.length := by omega
    simp [chunkLoop, hns]
  | succ f ih =>
    intro s acc h
    by_cases hs : s < text.length
    · have hadv := hstep s hs
      obtain ⟨r, hr⟩ := ih (nextStart text csize overlap s)
        (acc ++ [emitChunk text csize s]) (by omega)
      exact ⟨r, by simp [chunkLoop, hs, hr]⟩
    · exact ⟨acc, by simp [chunkLoop, hs]⟩

/-- A successful loop run returns the accumulator followed by the chunks
emitted at the visited start offsets. -/
theorem chunkLoop_eq_trace (text : List Char) (csize overlap : Nat) :
    ∀ fuel s acc r, chunkLoop text csize overlap fuel s acc = some r →
      r = acc ++ (startsTrace text csize overlap fuel s).map (emitChunk text csize) := by
  intro fuel
  induction fuel with
  | zero =>
    intro s acc r h
    by_cases hs : s < text.length
    · simp [chunkLoop, hs] at h
    · simp [chunkLoop, hs] at h
      simp [startsTrace, hs, ← h]
  | succ f ih =>
    intro s acc r h
    by_cases hs : s < text.length
    · simp only [chunkLoop, if_pos hs] at h
      have hrec := ih _ _ _ h
      simp [startsTrace, hs, hrec]
    · simp [chunkLoop, hs] at h
      simp [startsTrace, hs, ← h]

theorem startsTrace_ge (text : List Char) (csize overlap : Nat)
    (hstep : ∀ s, s < text.length → s < nextStart text csize overlap s) :
    ∀ fuel s x, x ∈ startsTrace text csize overlap fuel s → s ≤ x := by
  intro fuel
  induction fuel with
  | zero =>
    intro s x hx
    simp [startsTrace] at hx
  | succ f ih =>
    intro s x hx
    by_cases hs : s < text.length
    · simp only [startsTrace, if_pos hs, List.mem_cons] at hx
      rcases hx with rfl | hx
      · exact Nat.le_refl x
      · have h1 := hstep s hs
        have h2 := ih _ _ hx
        omega
    · simp [startsTrace, hs] at hx

theorem startsTrace_sorted (text : List Char) (csize overlap : Nat)
    (hstep : ∀ s, s < text.length → s < nextStart text csize overlap s) :
    ∀ fuel s, (startsTrace text csize overlap fuel s).Pairwise (fun a b => a < b) := by
  intro fuel
  induction fuel with
  | zero =>
    intro s
    simp [startsTrace]
  | succ f ih =>
    intro s
    by_cases hs : s < text.length
    · simp only [startsTrace, if_pos hs, List.pairwise_cons]
      refine ⟨fun x hx => ?_, ih _⟩
      have h1 := hstep s hs
      have h2 := startsTrace_ge text csize overlap hstep f _ x hx
      omega
    · simp [startsTrace, hs]

/-! ## Claims about the chunker -/

set_option maxRecDepth 200000

theorem chunkLoop_aaa_stuck (fuel : Nat) :
    ∀ acc, chunkLoop ('a' :: 'a' :: 'a' :: []) 2 2 fuel 0 acc = none := by
  induction fuel with
  | zero =>
    intro acc
    simp [chunkLoop]
  | succ f ih =>
    intro acc
    have h0 : nextStart ('a' :: 'a' :: 'a' :: []) 2 2 0 = 0 := by decide
    have hlt : (0 : Nat) < ('a' :: 'a' :: 'a' :: []).length := by decide
    simp only [chunkLoop, if_pos hlt, h0]
    exact ih _

/-- C1: the claim that `chunk_text` always terminates is false on the code:
the source loop has no forward-progress guard, and with
`chunk_size = 2`, `overlap = 2` on the text `"aaa"` the window start is
recomputed as `end - overlap = 0` on every iteration, so the `while` loop
never terminates (no fuel bound suffices). -/
theorem C1_chunk_text_diverges :
    ¬ chunkTerminates ('a' :: 'a' :: 'a' :: []) 2 2 := by
  rintro ⟨fuel, hsome⟩
  unfold chunkTextFuel at hsome
  rw [if_neg (by decide)] at hsome
  rw [chunkLoop_aaa_stuck fuel []] at hsome
  simp at hsome

/-- C4 as stated is false on the code: for a text no longer than
`chunk_size`, `chunk_text` returns the text verbatim (`return [text]`),
without the whitespace trimming the claim asserts.  On the input
`" a "` with the default configuration the single returned chunk still
carries its surrounding spaces. -/
theorem C4_counterexample_untrimmed :
    chunk_text (' ' :: 'a' :: ' ' :: []) 1000 200 =
      some [(' ' :: 'a' :: ' ' :: [])] ∧
    pyStrip (' ' :: 'a' :: ' ' :: []) ≠ (' ' :: 'a' :: ' ' :: []) := by
  constructor
  · decide
  · decide

/-- C4 amended: for every text whose length is at most `chunk_size`
(including the empty text), `chunk_text` returns exactly one chunk, and
that chunk is the input text itself, untrimmed. -/
theorem C4_single_raw_chunk (text : List Char) (csize overlap : Nat)
    (h : text.length ≤ csize) :
    chunk_text text csize overlap = some [text] := by
  unfold chunk_text chunkTextFuel
  rw [if_pos h]

/-- Witness for `C4_single_raw_chunk` at the empty text with the default
configuration. -/
theorem C4_single_raw_chunk_witness :
    ([] : List Char).length ≤ 1000 ∧
    chunk_text ([] : List Char) 1000 200 = some [([] : List Char)] :=
  ⟨by decide, C4_single_raw_chunk [] 1000 200 (by decide)⟩

/-- C3 as stated is false on the code: the lookback
`range(end, max(start + chunk_size - 100, start), -1)` begins at index
`end` itself, so when `text[start + chunk_size]` is a natural break the
cut is placed one past the hard boundary and the emitted chunk has
`chunk_size + 1` characters.  On 1000 copies of `'a'` followed by
`".a"` the first chunk has length 1001 > 1000. -/
theorem C3_counterexample_off_by_one :
    (((chunk_text (List.replicate 1000 'a' ++ ['.', 'a']) 1000 200).getD []).all
      (fun c => decide (c.length ≤ 1000))) = false := by
  decide

/-- C3 amended: for every text strictly longer than the default
`chunk_size = 1000` (with `overlap = 200`), `chunk_text` succeeds, the
chunks are exactly those emitted at the visited start offsets, every
chunk has length at most `chunk_size + 1` (the natural-break scan may
include the boundary character itself), and the start offsets are
strictly increasing; the loop only stops once the start offset has moved
past the end of the text. -/
theorem C3_chunks_bounded_and_increasing (text : List Char)
    (h : 1000 < text.length) :
    ∃ cs, chunk_text text 1000 200 = some cs ∧
      cs = (startsTrace text 1000 200 (text.length + 1) 0).map (emitChunk text 1000) ∧
      (∀ c ∈ cs, c.length ≤ 1001) ∧
      (startsTrace text 1000 200 (text.length + 1) 0).Pairwise (fun a b => a < b) := by
  have hstep : ∀ s, s < text.length → s < nextStart text 1000 200 s :=
    fun s _ => nextStart_gt_default text s
  obtain ⟨r, hr⟩ := chunkLoop_total text 1000 200 hstep (text.length + 1) 0 []
    (by omega)
  have hshape := chunkLoop_eq_trace text 1000 200 (text.length + 1) 0 [] r hr
  refine ⟨r, ?_, ?_, ?_, ?_⟩
  · unfold chunk_text chunkTextFuel
    rw [if_neg (by omega)]
    exact hr
  · simpa using hshape
  · intro c hc
    rw [hshape] at hc
    simp only [List.nil_append, List.mem_map] at hc
    obtain ⟨s, _, hceq⟩ := hc
    rw [← hceq]
    exact emitChunk_length_le text 1000 s
  · exact startsTrace_sorted text 1000 200 hstep (text.length + 1) 0

/-- Witness for `C3_chunks_bounded_and_increasing` on 1001 copies of `'a'`. -/
theorem C3_chunks_bounded_and_increasing_witness :
    1000 < (List.replicate 1001 'a').length ∧
    ∃ cs, chunk_text (List.replicate 1001 'a') 1000 200 = some cs ∧
      cs = (startsTrace (List.replicate 1001 'a') 1000 200
        ((List.replicate 1001 'a').length + 1) 0).map
        (emitChunk (List.replicate 1001 'a') 1000) ∧
      (∀ c ∈ cs, c.length ≤ 1001) ∧
      (startsTrace (List.replicate 1001 'a') 1000 200
        ((List.replicate 1001 'a').length + 1) 0).Pairwise (fun a b => a < b) :=
  ⟨by simp, C3_chunks_bounded_and_increasing (List.replicate 1001 'a') (by simp)⟩

/-! ## Retrieval-and-grounding pipeline (`assistant.py`, `embedding_generator.py`) -/

/-- The configured similarity threshold (`SIMILARITY_THRESHOLD`, default
`0.7`; scores are modelled as exact rationals, `mkRat 7 10`). -/
def SIMILARITY_THRESHOLD : ℚ := mkRat 7 10

/-- The configured default number of neighbours (`DEFAULT_TOP_K = 5`). -/
def DEFAULT_TOP_K : Nat := 5

/-- A match returned by `PineconeManager.query_similar_documents`. -/
structure QueryDoc where
  id : String
  score : ℚ
  filename : String
  text : List Char
  chunk_index : Nat
deriving DecidableEq

/-- One entry of the `sources` list of a successful answer. -/
structure SourceInfo where
  filename : String
  score : ℚ
  chunk_index : Nat
deriving DecidableEq

/-- The dictionary returned by `ask_question`; the `documents_found` and
`relevant_documents` keys exist only on the full success path, modelled
by `Option`. -/
structure AskResult where
  success : Bool
  message : String
  answer : String
  sources : List SourceInfo
  documents_found : Option Nat := none
  relevant_documents : Option Nat := none
deriving DecidableEq

/-- Python `round(q, 3)`.  (CPython rounds ties of binary floats to even;
ties are unobservable in the claims considered, which never inspect a
rounded value.) -/
def round3 (q : ℚ) : ℚ := ((round (q * 1000) : ℤ) : ℚ) / 1000

/-- Model of `EmbeddingGenerator.generate_embedding`: collapses newlines to spaces,
strips, raises `ValueError("Texto vazio fornecido.")` on an empty cleaned
text, and otherwise calls the embeddings endpoint (the injected oracle
`api`; `Except.error` is the call raising). -/
def generate_embedding (api : List Char → Except String (List ℚ))
    (text : List Char) : Except String (List ℚ) :=
  if pyStrip (text.map (fun c => if c = '\n' then ' ' else c)) = [] then
    Except.error "Texto vazio fornecido."
  else api (pyStrip (text.map (fun c => if c = '\n' then ' ' else c)))

/-- Model of `EmbeddingGenerator.generate_embeddings_batch`: one output entry per
input text, in order; a per-item failure is caught and becomes an empty
vector (`embeddings.append([])`), and the loop itself never raises. -/
def generate_embeddings_batch (api : List Char → Except String (List ℚ))
    (texts : List (List Char)) : List (List ℚ) :=
  texts.map (fun t =>
    match generate_embedding api t with
    | Except.ok e => e
    | Except.error _ => [])

/-- Model of `ConversationalAssistant._prepare_context`, inner loop
(`enumerate(documents, 1)`): a header line, the chunk text and a blank
line per document. -/
def contextParts : Nat → List QueryDoc → List String
  | _, [] => []
  | i, d :: ds =>
    ("Documento " ++ toString i ++ " (" ++ d.filename ++ "):") ::
      String.mk d.text :: "" :: contextParts (i + 1) ds

/-- Model of `ConversationalAssistant._prepare_context`. -/
def prepare_context (documents : List QueryDoc) : String :=
  String.intercalate "\n" (contextParts 1 documents)

/-- The fixed system message of `_generate_answer`. -/
def systemMessage : String :=
  "Você é um assistente especializado em responder perguntas baseado em documentos."

/-- The user prompt of `_generate_answer` (the f-string, with the context
and the question spliced in). -/
def userPrompt (question : List Char) (context : String) : String :=
  "Você é um assistente especializado em responder perguntas baseado em documentos fornecidos.\n\nContexto dos documentos:\n"
    ++ context
    ++ "\n\nPergunta: "
    ++ String.mk question
    ++ "\n\nInstruções:\n1. Responda a pergunta baseando-se APENAS nas informações fornecidas no contexto.\n2. Se a informação não estiver disponível no contexto, diga que não encontrou a informação.\n3. Seja claro, objetivo e cite os documentos quando relevante.\n4. Mantenha um tom profissional e útil.\n\nResposta:"

/-- Model of `ConversationalAssistant._generate_answer`: the chat-completion call
sits inside its own `try/except`; on success the content is stripped, on
failure a fixed apology string is returned instead of propagating. -/
def generate_answer (question : List Char) (context : String)
    (complete : String → String → Except String String) : String :=
  match complete systemMessage (userPrompt question context) with
  | Except.ok content => String.mk (pyStrip content.data)
  | Except.error _ =>
    "Desculpe, ocorreu um erro ao gerar a resposta. Tente novamente."

/-- Model of `ConversationalAssistant.ask_question`.  The three external calls are
injected: `api` is the raw embeddings endpoint (used through
`generate_embedding`), `query` is
`PineconeManager.query_similar_documents` applied to the question
embedding and `top_k`, and `complete` is the chat-completion call.
`top_k or Config.DEFAULT_TOP_K` maps falsy values (`None`, `0`) to the
default.  The body after validation is one `try/except`: any `error`
from `api` or `query` becomes the structured failure result. -/
def ask_question (question : List Char) (top_k : Option Nat)
    (api : List Char → Except String (List ℚ))
    (query : List ℚ → Nat → Except String (List QueryDoc))
    (complete : String → String → Except String String) : AskResult :=
  if pyStrip question = [] then
    { success := false, message := "Pergunta não pode estar vazia.",
      answer := "", sources := [] }
  else
    match generate_embedding api question with
    | Except.error e =>
      { success := false, message := "Erro ao processar pergunta: " ++ e,
        answer := "", sources := [] }
    | Except.ok question_embedding =>
      match query question_embedding
          (match top_k with
            | none => DEFAULT_TOP_K
            | some k => if k = 0 then DEFAULT_TOP_K else k) with
      | Except.error e =>
        { success := false, message := "Erro ao processar pergunta: " ++ e,
          answer := "", sources := [] }
      | Except.ok similar_docs =>
        if similar_docs = [] then
          { success := true,
            message := "Nenhum documento relevante encontrado.",
            answer := "Desculpe, não encontrei informações relevantes para responder sua pergunta.",
            sources := [] }
        else
          if similar_docs.filter (fun d => decide (SIMILARITY_THRESHOLD ≤ d.score)) = [] then
            { success := true,
              message := "Documentos encontrados não são suficientemente relevantes.",
              answer := "Encontrei alguns documentos, mas eles não parecem ser muito relevantes para sua pergunta. Pode reformular a pergunta?",
              sources := [] }
          else
            { success := true,
              message := "Resposta gerada com sucesso.",
              answer := generate_answer question
                (prepare_context (similar_docs.filter
                  (fun d => decide (SIMILARITY_THRESHOLD ≤ d.score)))) complete,
              sources := (similar_docs.filter
                (fun d => decide (SIMILARITY_THRESHOLD ≤ d.score))).map (fun d =>
                  { filename := d.filename, score := round3 d.score,
                    chunk_index := d.chunk_index }),
              documents_found := some similar_docs.length,
              relevant_documents := some (similar_docs.filter
                (fun d => decide (SIMILARITY_THRESHOLD ≤ d.score))).length }

/-! ## Indexing pipeline (`assistant.py`, `pinecone_manager.py`) -/

/-- A source document as produced by `PDFProcessor.process_all_pdfs`. -/
structure Document where
  filename : String
  text : List Char
  path : String
deriving DecidableEq

/-- One `chunk_metadata` entry built by `ConversationalAssistant.index_pdfs`
(`chunk_index` is the position `i` of the chunk inside its own document). -/
structure ChunkMeta where
  filename : String
  text : List Char
  path : String
  chunk_index : Nat
  total_chunks : Nat
deriving DecidableEq

/-- The function `chunk_text` under the default configuration
(`CHUNK_SIZE = 1000`, `CHUNK_OVERLAP = 200`), as called by `index_pdfs`.
With these parameters every run terminates
(`chunkTextDefault_eq` below), so the fuelled value is extracted. -/
def chunkTextDefault (text : List Char) : List (List Char) :=
  (chunk_text text 1000 200).getD []

/-- The chunks of one document. -/
def docChunks (d : Document) : List (List Char) := chunkTextDefault d.text

/-- The `chunk_metadata` entries contributed by one document: the inner
`for i, chunk in enumerate(chunks)` loop of `index_pdfs`. -/
def metaOfDoc (d : Document) : List ChunkMeta :=
  (docChunks d).enum.map (fun p =>
    { filename := d.filename, text := p.2, path := d.path,
      chunk_index := p.1, total_chunks := (docChunks d).length })

/-- The list `all_chunks` accumulated over all documents by `index_pdfs`. -/
def all_chunks (documents : List Document) : List (List Char) :=
  (documents.map docChunks).flatten

/-- The list `chunk_metadata` accumulated over all documents by `index_pdfs`. -/
def chunk_metadata (documents : List Document) : List ChunkMeta :=
  (documents.map metaOfDoc).flatten

/-- A Pinecone vector record as built by `PineconeManager.upsert_documents`.
The random `uuid4` identifier is modelled as the enumeration position
(no claim inspects its value, only freshness within one call). -/
structure VectorRecord where
  id : Nat
  values : List ℚ
  filename : String
  text_preview : List Char
  chunk_index : Nat
  full_text : List Char
deriving DecidableEq

/-- The `for i, (doc, embedding) in enumerate(zip(documents, embeddings))`
loop of `upsert_documents`: an empty embedding is skipped
(`if not embedding: continue`), but the enumeration index `i` — which the
freshly built metadata stores as `chunk_index` — counts skipped entries
too, and ignores the per-document `chunk_index` already present in `doc`. -/
def buildVectors : Nat → List (ChunkMeta × List ℚ) → List VectorRecord
  | _, [] => []
  | i, (doc, emb) :: rest =>
    if emb = [] then buildVectors (i + 1) rest
    else
      { id := i, values := emb, filename := doc.filename,
        text_preview := doc.text.take 1000, chunk_index := i,
        full_text := doc.text } :: buildVectors (i + 1) rest

/-- Model of `PineconeManager.upsert_documents`: raises `ValueError` when the two
lists differ in length, otherwise sends every built record to
`index.upsert` in batches of at most 100.  The value returned here is the
full sequence of upserted records (the concatenation of the batches,
see `upsertBatches_flatten`). -/
def upsert_documents (documents : List ChunkMeta)
    (embeddings : List (List ℚ)) : Except String (List VectorRecord) :=
  if documents.length ≠ embeddings.length then
    Except.error "Número de documentos deve ser igual ao número de embeddings."
  else Except.ok (buildVectors 0 (documents.zip embeddings))

/-- The batches of at most `batch_size = 100` records sent to
`index.upsert` (`vectors[i:i + batch_size]`). -/
def upsertBatches (fuel : Nat) (vectors : List VectorRecord) :
    List (List VectorRecord) :=
  match fuel, vectors with
  | _, [] => []
  | 0, _ => []
  | fuel + 1, v => v.take 100 :: upsertBatches fuel (v.drop 100)

/-- The dictionary returned by `index_pdfs`; the two counters exist only
on the success path. -/
structure IndexResult where
  success : Bool
  message : String
  documents_processed : Nat
  chunks_created : Option Nat := none
  embeddings_generated : Option Nat := none
deriving DecidableEq

/-- Model of `ConversationalAssistant.index_pdfs` on an already extracted document
list, with the embeddings endpoint injected.  An exception escaping
`upsert_documents` would propagate (nothing catches it there), hence the
`Except`; the `ok` value is the returned dictionary together with the
records passed to the vector store. -/
def index_pdfs (api : List Char → Except String (List ℚ))
    (documents : List Document) :
    Except String (IndexResult × List VectorRecord) :=
  if documents = [] then
    Except.ok ({ success := false,
                 message := "Nenhum documento encontrado para processar.",
                 documents_processed := 0 }, [])
  else
    match upsert_documents (chunk_metadata documents)
        (generate_embeddings_batch api (all_chunks documents)) with
    | Except.error e => Except.error e
    | Except.ok vectors =>
      Except.ok ({ success := true,
                   message := "Documentos indexados com sucesso.",
                   documents_processed := documents.length,
                   chunks_created := some (all_chunks documents).length,
                   embeddings_generated := some
                     ((generate_embeddings_batch api
                       (all_chunks documents)).filter
                         (fun e => !e.isEmpty)).length }, vectors)

/-! ## System status (`assistant.py`, `pinecone_manager.py`) -/

/-- The dictionary built by `PineconeManager.get_index_stats` from the
`describe_index_stats` response. -/
structure IndexStats where
  total_vectors : Nat
  dimension : Nat
  index_fullness : ℚ
deriving DecidableEq

/-- Model of `PineconeManager.get_index_stats`: its own `try/except` swallows a
failing stats call and returns the empty dictionary (modelled `none`)
instead of re-raising. -/
def get_index_stats (statsCall : Except String IndexStats) :
    Option IndexStats :=
  match statsCall with
  | Except.ok s => some s
  | Except.error _ => none

/-- The dictionary returned by `get_system_status`.  The connected branch
has no `error` key and the disconnected branch has no stats keys; absent
keys are modelled by `Option`/defaults. -/
structure SystemStatus where
  pinecone_connected : Bool
  total_vectors : Nat
  index_dimension : Nat
  index_fullness : ℚ
  error : Option String
  pdf_directory : String
  embedding_model : String
  chat_model : String
deriving DecidableEq

/-- Model of `ConversationalAssistant.get_system_status`.  Because
`get_index_stats` never raises (it swallows stats failures and returns
`{}`), the `except` branch of the source — the only place that would set
`pinecone_connected: False` with the error message — is unreachable for a
stats-endpoint failure; the `dict.get(..., 0)` calls then supply zero
defaults.  Configured constants are the defaults of `config.py`. -/
def get_system_status (statsCall : Except String IndexStats) : SystemStatus :=
  { pinecone_connected := true,
    total_vectors := (get_index_stats statsCall).elim 0 IndexStats.total_vectors,
    index_dimension := (get_index_stats statsCall).elim 0 IndexStats.dimension,
    index_fullness := (get_index_stats statsCall).elim 0 IndexStats.index_fullness,
    error := none,
    pdf_directory := "pdfs",
    embedding_model := "text-embedding-3-large",
    chat_model := "gpt-4o" }

/-! ## Pipeline lemmas -/

theorem pyStrip_eq_nil_iff (l : List Char) :
    pyStrip l = [] ↔ ∀ c ∈ l, isPyWhitespace c = true := by
  unfold pyStrip
  rw [List.reverse_eq_nil_iff, List.dropWhile_eq_nil_iff]
  constructor
  · intro h c hc
    by_cases hmem : c ∈ l.dropWhile isPyWhitespace
    · exact h c (by simpa using hmem)
    · have hct : c ∈ l.takeWhile isPyWhitespace := by
        have hsplit := List.takeWhile_append_dropWhile (p := isPyWhitespace) (l := l)
        rw [← hsplit] at hc
        rcases List.mem_append.mp hc with h1 | h1
        · exact h1
        · exact absurd h1 hmem
      exact List.mem_takeWhile_imp hct
  · intro h x hx
    apply h
    have hx2 : x ∈ l.dropWhile isPyWhitespace := by simpa using hx
    exact (List.dropWhile_sublist _).subset hx2

/-- A question that is not whitespace-only is still nonempty after
`generate_embedding` collapses newlines to spaces and strips. -/
theorem cleaned_ne_nil (question : List Char) (hq : pyStrip question ≠ []) :
    pyStrip (question.map (fun c => if c = '\n' then ' ' else c)) ≠ [] := by
  intro hcl
  apply hq
  rw [pyStrip_eq_nil_iff] at hcl ⊢
  intro c hc
  have hw := hcl _ (List.mem_map_of_mem _ hc)
  by_cases h : c = '\n'
  · subst h
    decide
  · rw [if_neg h] at hw
    exact hw

theorem generate_embedding_error (question : List Char)
    (hq : pyStrip question ≠ []) (emsg : String) :
    generate_embedding (fun _ => Except.error emsg) question =
      Except.error emsg := by
  unfold generate_embedding
  rw [if_neg (cleaned_ne_nil question hq)]

theorem generate_embedding_ok (question : List Char)
    (hq : pyStrip question ≠ []) (emb : List ℚ) :
    generate_embedding (fun _ => Except.ok emb) question = Except.ok emb := by
  unfold generate_embedding
  rw [if_neg (cleaned_ne_nil question hq)]

/-! ## Claims about the retrieval pipeline -/

/-- C7: an empty or whitespace-only question is rejected immediately with
the no-answer result (success=false, fixed message, empty answer, empty
sources).  The oracles for embedding, vector-store query and chat
completion are universally quantified and absent from the result: no
upstream call influences (or is needed for) the answer. -/
theorem C7_empty_question_rejected (question : List Char)
    (hq : pyStrip question = []) (top_k : Option Nat)
    (api : List Char → Except String (List ℚ))
    (query : List ℚ → Nat → Except String (List QueryDoc))
    (complete : String → String → Except String String) :
    ask_question question top_k api query complete =
      { success := false, message := "Pergunta não pode estar vazia.",
        answer := "", sources := [] } := by
  unfold ask_question
  rw [if_pos hq]

/-- Witness for `C7_empty_question_rejected` at the whitespace question
`" "`. -/
theorem C7_empty_question_rejected_witness :
    ask_question [' '] none (fun _ => Except.ok [1])
      (fun _ _ => Except.ok []) (fun _ _ => Except.ok "x") =
      { success := false, message := "Pergunta não pode estar vazia.",
        answer := "", sources := [] } :=
  C7_empty_question_rejected [' '] (by decide) none
    (fun _ => Except.ok [1]) (fun _ _ => Except.ok [])
    (fun _ _ => Except.ok "x")

/-- C6: when the embedding succeeds and the vector-store query returns a
non-empty list in which every score is strictly below the similarity
threshold, `ask_question` returns the distinct rephrase-suggestion
message with success=true and empty sources; the result is the same for
every chat-completion oracle, so the completion service is never
invoked. -/
theorem C6_all_below_threshold (question : List Char)
    (hq : pyStrip question ≠ []) (top_k : Option Nat) (emb : List ℚ)
    (docs : List QueryDoc) (hne : docs ≠ [])
    (hbelow : ∀ d ∈ docs, d.score < SIMILARITY_THRESHOLD)
    (complete : String → String → Except String String) :
    ask_question question top_k (fun _ => Except.ok emb)
      (fun _ _ => Except.ok docs) complete =
      { success := true,
        message := "Documentos encontrados não são suficientemente relevantes.",
        answer := "Encontrei alguns documentos, mas eles não parecem ser muito relevantes para sua pergunta. Pode reformular a pergunta?",
        sources := [] } := by
  have hfilter : docs.filter (fun d => decide (SIMILARITY_THRESHOLD ≤ d.score)) = [] := by
    rw [List.filter_eq_nil_iff]
    intro d hd
    simpa using not_le.mpr (hbelow d hd)
  unfold ask_question
  rw [if_neg hq, generate_embedding_ok question hq emb]
  simp [hne, hfilter]

/-- Witness for `C6_all_below_threshold`: one retrieved record with
similarity 0.65 against the 0.7 threshold. -/
theorem C6_all_below_threshold_witness :
    ask_question ['o', 'i'] none (fun _ => Except.ok [1])
      (fun _ _ => Except.ok
        [{ id := "v1", score := mkRat 13 20, filename := "a.pdf",
           text := ['x'], chunk_index := 0 }])
      (fun _ _ => Except.ok "x") =
      { success := true,
        message := "Documentos encontrados não são suficientemente relevantes.",
        answer := "Encontrei alguns documentos, mas eles não parecem ser muito relevantes para sua pergunta. Pode reformular a pergunta?",
        sources := [] } :=
  C6_all_below_threshold ['o', 'i'] (by decide) none [1]
    [{ id := "v1", score := mkRat 13 20, filename := "a.pdf",
       text := ['x'], chunk_index := 0 }]
    (by decide) (by decide) (fun _ _ => Except.ok "x")

/-- A concrete run of `ask_question` in which only the chat-completion
call fails. -/
def c2Result : AskResult :=
  ask_question ['o', 'i'] none (fun _ => Except.ok [1])
    (fun _ _ => Except.ok
      [{ id := "v1", score := mkRat 4 5, filename := "a.pdf",
         text := ['x'], chunk_index := 0 }])
    (fun _ _ => Except.error "boom")

/-- C2 as stated is false on the code: an exception raised by the
chat-completion call (step 7) is caught inside `_generate_answer`, not by
the `ask_question` handler, and yields success=true with a fixed apology
answer and non-empty sources — not the success=false, empty-answer,
empty-sources failure shape the claim asserts for every exception in
steps 2–7. -/
theorem C2_counterexample_generation_failure :
    c2Result.success = true ∧
    c2Result.answer =
      "Desculpe, ocorreu um erro ao gerar a resposta. Tente novamente." ∧
    c2Result.sources ≠ [] := by
  refine ⟨by decide, by decide, by decide⟩

/-- C2 amended: exceptions during embedding the question (step 2) or
querying the vector store (step 3) are caught by `ask_question` and
produce the structured failure result — success=false, a message carrying
the error, empty answer and empty sources; an exception in the
chat-completion call (step 7) is caught one level deeper, inside
`_generate_answer`, and produces success=true with a fixed apology answer
and the sources of the threshold-surviving documents intact.  In every
case `ask_question` is a total function of its oracles: it never raises
to its caller. -/
theorem C2_exception_containment (question : List Char)
    (hq : pyStrip question ≠ []) (top_k : Option Nat) (emsg : String) :
    (∀ query complete,
      ask_question question top_k (fun _ => Except.error emsg) query complete =
        { success := false, message := "Erro ao processar pergunta: " ++ emsg,
          answer := "", sources := [] }) ∧
    (∀ emb complete,
      ask_question question top_k (fun _ => Except.ok emb)
        (fun _ _ => Except.error emsg) complete =
        { success := false, message := "Erro ao processar pergunta: " ++ emsg,
          answer := "", sources := [] }) ∧
    (∀ emb docs,
      docs.filter (fun d => decide (SIMILARITY_THRESHOLD ≤ d.score)) ≠ [] →
      (ask_question question top_k (fun _ => Except.ok emb)
        (fun _ _ => Except.ok docs)
        (fun _ _ => Except.error emsg)).success = true ∧
      (ask_question question top_k (fun _ => Except.ok emb)
        (fun _ _ => Except.ok docs)
        (fun _ _ => Except.error emsg)).answer =
        "Desculpe, ocorreu um erro ao gerar a resposta. Tente novamente." ∧
      (ask_question question top_k (fun _ => Except.ok emb)
        (fun _ _ => Except.ok docs)
        (fun _ _ => Except.error emsg)).sources =
        (docs.filter (fun d => decide (SIMILARITY_THRESHOLD ≤ d.score))).map
          (fun d => { filename := d.filename, score := round3 d.score,
                      chunk_index := d.chunk_index })) := by
  refine ⟨?_, ?_, ?_⟩
  · intro query complete
    unfold ask_question
    rw [if_neg hq, generate_embedding_error question hq emsg]
  · intro emb complete
    unfold ask_question
    rw [if_neg hq, generate_embedding_ok question hq emb]
  · intro emb docs hrel
    have hdocs : docs ≠ [] := by
      intro h
      rw [h] at hrel
      simp at hrel
    unfold ask_question
    rw [if_neg hq, generate_embedding_ok question hq emb]
    simp [hdocs, hrel, generate_answer]

/-- Witness for `C2_exception_containment`: a failing embedding call on a
concrete question. -/
theorem C2_exception_containment_witness :
    ask_question ['o', 'i'] none (fun _ => Except.error "boom")
      (fun _ _ => Except.ok []) (fun _ _ => Except.ok "x") =
      { success := false,
        message := "Erro ao processar pergunta: " ++ "boom",
        answer := "", sources := [] } :=
  (C2_exception_containment ['o', 'i'] (by decide) none "boom").1
    (fun _ _ => Except.ok []) (fun _ _ => Except.ok "x")

/-! ## Indexing lemmas -/

theorem chunkText_short (text : List Char) (csize overlap : Nat)
    (h : text.length ≤ csize) : chunk_text text csize overlap = some [text] := by
  unfold chunk_text chunkTextFuel
  rw [if_pos h]

/-- Under the default configuration `chunk_text` always terminates, so the
value extracted by `chunkTextDefault` is the one it returns. -/
theorem chunkTextDefault_eq (text : List Char) :
    chunk_text text 1000 200 = some (chunkTextDefault text) := by
  by_cases h : text.length ≤ 1000
  · rw [chunkText_short text 1000 200 h]
    unfold chunkTextDefault
    rw [chunkText_short text 1000 200 h]
    rfl
  · have hstep : ∀ s, s < text.length → s < nextStart text 1000 200 s :=
      fun s _ => nextStart_gt_default text s
    obtain ⟨r, hr⟩ := chunkLoop_total text 1000 200 hstep (text.length + 1) 0 []
      (by omega)
    have hct : chunk_text text 1000 200 = some r := by
      unfold chunk_text chunkTextFuel
      rw [if_neg h]
      exact hr
    rw [hct]
    unfold chunkTextDefault
    rw [hct]
    rfl

theorem metaOfDoc_length (d : Document) :
    (metaOfDoc d).length = (docChunks d).length := by
  simp [metaOfDoc]

theorem chunk_metadata_length (documents : List Document) :
    (chunk_metadata documents).length = (all_chunks documents).length := by
  unfold chunk_metadata all_chunks
  induction documents with
  | nil => simp
  | cons d ds ih => simp [metaOfDoc_length, ih]

theorem generate_embeddings_batch_length
    (api : List Char → Except String (List ℚ)) (texts : List (List Char)) :
    (generate_embeddings_batch api texts).length = texts.length := by
  simp [generate_embeddings_batch]

theorem buildVectors_length (pairs : List (ChunkMeta × List ℚ)) :
    ∀ n, (buildVectors n pairs).length =
      (pairs.filter (fun p => !p.2.isEmpty)).length := by
  induction pairs with
  | nil =>
    intro n
    simp [buildVectors]
  | cons p rest ih =>
    intro n
    obtain ⟨doc, emb⟩ := p
    by_cases he : emb = []
    · subst he
      simp [buildVectors, List.filter_cons, ih]
    · have hne : emb.isEmpty = false := by
        cases emb with
        | nil => exact absurd rfl he
        | cons a l => rfl
      simp [buildVectors, he, List.filter_cons, hne, ih]

theorem zip_filter_snd_length (metas : List ChunkMeta) :
    ∀ embeds : List (List ℚ), metas.length = embeds.length →
      ((metas.zip embeds).filter (fun p => !p.2.isEmpty)).length =
        (embeds.filter (fun e => !e.isEmpty)).length := by
  induction metas with
  | nil =>
    intro embeds h
    cases embeds with
    | nil => simp
    | cons e es => simp at h
  | cons m ms ih =>
    intro embeds h
    cases embeds with
    | nil => simp at h
    | cons e es =>
      have h2 : ms.length = es.length := by simpa using h
      by_cases he : e.isEmpty = true
      · simp [List.filter_cons, he, ih es h2]
      · simp [List.filter_cons, he, ih es h2]

theorem filter_isEmpty_split (embeds : List (List ℚ)) :
    (embeds.filter (fun e => !e.isEmpty)).length =
      embeds.length - (embeds.filter (fun e => e.isEmpty)).length := by
  induction embeds with
  | nil => simp
  | cons e es ih =>
    have hle : (es.filter (fun e => e.isEmpty)).length ≤ es.length :=
      List.length_filter_le _ _
    cases he : e.isEmpty with
    | true =>
      simp [List.filter_cons, he, ih]
    | false =>
      simp [List.filter_cons, he, ih]
      omega

/-- The records sent to `index.upsert` across the batches of 100 are
exactly the built vectors, in order. -/
theorem upsertBatches_flatten :
    ∀ fuel (vectors : List VectorRecord), vectors.length ≤ fuel →
      (upsertBatches fuel vectors).flatten = vectors := by
  intro fuel
  induction fuel with
  | zero =>
    intro vectors h
    have hnil : vectors = [] := List.eq_nil_of_length_eq_zero (by omega)
    subst hnil
    rfl
  | succ f ih =>
    intro vectors h
    cases vectors with
    | nil => rfl
    | cons v vs =>
      have hlen : ((v :: vs).drop 100).length ≤ f := by
        simp only [List.length_drop, List.length_cons]
        simp only [List.length_cons] at h
        omega
      show ((v :: vs).take 100 :: upsertBatches f ((v :: vs).drop 100)).flatten =
        v :: vs
      rw [List.flatten_cons, ih _ hlen, List.take_append_drop]

/-! ## Claims about indexing and status -/

/-- C5: on a non-empty document set whose chunking produces `n` chunks of
which `k` embedding calls fail (failed chunks are exactly the empty
vectors in the batch), `index_pdfs` succeeds and reports
`chunks_created = n` and `embeddings_generated = n - k`, and exactly
`n - k` records — one per successfully embedded chunk — are passed to the
vector store; failed chunks are silently dropped and do not abort the
batch. -/
theorem C5_failed_embeddings_dropped
    (api : List Char → Except String (List ℚ)) (documents : List Document)
    (hne : documents ≠ []) :
    ∃ vectors,
      index_pdfs api documents = Except.ok
        ({ success := true, message := "Documentos indexados com sucesso.",
           documents_processed := documents.length,
           chunks_created := some (all_chunks documents).length,
           embeddings_generated := some ((all_chunks documents).length -
             ((generate_embeddings_batch api (all_chunks documents)).filter
               (fun e => e.isEmpty)).length) }, vectors) ∧
      vectors.length = (all_chunks documents).length -
        ((generate_embeddings_batch api (all_chunks documents)).filter
          (fun e => e.isEmpty)).length := by
  have hlen : (chunk_metadata documents).length =
      (generate_embeddings_batch api (all_chunks documents)).length := by
    rw [generate_embeddings_batch_length, chunk_metadata_length]
  have hup : upsert_documents (chunk_metadata documents)
      (generate_embeddings_batch api (all_chunks documents)) =
      Except.ok (buildVectors 0 ((chunk_metadata documents).zip
        (generate_embeddings_batch api (all_chunks documents)))) := by
    unfold upsert_documents
    rw [if_neg (fun hcon => hcon hlen)]
  refine ⟨buildVectors 0 ((chunk_metadata documents).zip
    (generate_embeddings_batch api (all_chunks documents))), ?_, ?_⟩
  · unfold index_pdfs
    rw [if_neg hne, hup]
    rw [filter_isEmpty_split, generate_embeddings_batch_length]
  · rw [buildVectors_length _ 0, zip_filter_snd_length _ _ hlen,
      filter_isEmpty_split, generate_embeddings_batch_length]

/-- The two documents of the C5 witness scenario: two chunks in total, of
which the second fails to embed. -/
def c5docs : List Document :=
  [{ filename := "a.pdf", text := ['a', 'a'], path := "p1" },
   { filename := "b.pdf", text := ['b'], path := "p2" }]

/-- An embeddings endpoint that fails exactly on the chunk `"b"`. -/
def c5api : List Char → Except String (List ℚ) :=
  fun t => if t = ['b'] then Except.error "boom" else Except.ok [1]

/-- Witness for `C5_failed_embeddings_dropped` on two one-chunk documents
with one embedding failure. -/
theorem C5_failed_embeddings_dropped_witness :
    c5docs ≠ [] ∧
    ∃ vectors,
      index_pdfs c5api c5docs = Except.ok
        ({ success := true, message := "Documentos indexados com sucesso.",
           documents_processed := c5docs.length,
           chunks_created := some (all_chunks c5docs).length,
           embeddings_generated := some ((all_chunks c5docs).length -
             ((generate_embeddings_batch c5api (all_chunks c5docs)).filter
               (fun e => e.isEmpty)).length) }, vectors) ∧
      vectors.length = (all_chunks c5docs).length -
        ((generate_embeddings_batch c5api (all_chunks c5docs)).filter
          (fun e => e.isEmpty)).length :=
  ⟨by decide, C5_failed_embeddings_dropped c5api c5docs (by decide)⟩

/-- Two single-chunk documents: under the claim the second document's
only chunk has per-document `chunk_index = 0`. -/
def c8docs : List Document :=
  [{ filename := "a.pdf", text := ['x'], path := "p1" },
   { filename := "b.pdf", text := ['y'], path := "p2" }]

/-- An embeddings endpoint that always succeeds. -/
def c8api : List Char → Except String (List ℚ) := fun _ => Except.ok [1]

/-- The `chunk_index` values of the records passed to the vector store
when indexing `c8docs`. -/
def upsertedChunkIndices : List Nat :=
  match index_pdfs c8api c8docs with
  | Except.ok p => p.2.map VectorRecord.chunk_index
  | Except.error _ => []

/-- C8: false on the code.  `index_pdfs` stores the per-document index in
each metadata entry (both documents' single chunks get `chunk_index = 0`),
but `upsert_documents` rebuilds the metadata and overwrites `chunk_index`
with its own loop counter — the position in the cross-document
enumeration — so the second document's chunk is persisted with
`chunk_index = 1` instead of `0`. -/
theorem C8_persisted_chunk_index_is_global :
    (chunk_metadata c8docs).map ChunkMeta.chunk_index = [0, 0] ∧
    upsertedChunkIndices = [0, 1] := by
  refine ⟨by decide, by decide⟩

/-- C9: false on the code.  When the stats endpoint fails,
`get_index_stats` swallows the exception and returns the empty dict, so
`get_system_status` takes its success path and reports
`pinecone_connected = True` with zeroed statistics and no error field —
not the disconnected state the claim describes. -/
theorem C9_stats_failure_reports_connected :
    (get_system_status (Except.error "boom")).pinecone_connected = true ∧
    (get_system_status (Except.error "boom")).total_vectors = 0 ∧
    (get_system_status (Except.error "boom")).error = none := by
  refine ⟨by decide, by decide, by decide⟩

/-- C10: `generate_embeddings_batch` returns exactly one entry per input
text — the embedding on success, the empty vector on a per-item failure —
and never raises (it is total in the oracle); consequently the
length-equality precondition at the top of `upsert_documents` holds
whenever `index_pdfs` calls it, and `index_pdfs` never produces that
`ValueError`. -/
theorem C10_batch_alignment (api : List Char → Except String (List ℚ))
    (texts : List (List Char)) (documents : List Document) :
    (generate_embeddings_batch api texts).length = texts.length ∧
    (∀ i, i < texts.length →
      (generate_embeddings_batch api texts).getD i [] =
        match generate_embedding api (texts.getD i []) with
        | Except.ok e => e
        | Except.error _ => []) ∧
    (chunk_metadata documents).length =
      (generate_embeddings_batch api (all_chunks documents)).length ∧
    ∃ r, index_pdfs api documents = Except.ok r := by
  have hlen : ∀ ds : List Document, (chunk_metadata ds).length =
      (generate_embeddings_batch api (all_chunks ds)).length := by
    intro ds
    rw [generate_embeddings_batch_length, chunk_metadata_length]
  refine ⟨generate_embeddings_batch_length api texts, ?_, hlen documents, ?_⟩
  · intro i hi
    unfold generate_embeddings_batch
    rw [List.getD_eq_getElem?_getD, List.getElem?_map,
      List.getElem?_eq_getElem hi, List.getD_eq_getElem _ _ hi]
    rfl
  · by_cases hd : documents = []
    · have hok : index_pdfs api documents = Except.ok
          ({ success := false,
             message := "Nenhum documento encontrado para processar.",
             documents_processed := 0 }, []) := by
        unfold index_pdfs
        rw [if_pos hd]
      exact ⟨_, hok⟩
    · have hup : upsert_documents (chunk_metadata documents)
          (generate_embeddings_batch api (all_chunks documents)) =
          Except.ok (buildVectors 0 ((chunk_metadata documents).zip
            (generate_embeddings_batch api (all_chunks documents)))) := by
        unfold upsert_documents
        rw [if_neg (fun hcon => hcon (hlen documents))]
      have hok : index_pdfs api documents = Except.ok
          ({ success := true, message := "Documentos indexados com sucesso.",
             documents_processed := documents.length,
             chunks_created := some (all_chunks documents).length,
             embeddings_generated := some
               ((generate_embeddings_batch api (all_chunks documents)).filter
                 (fun e => !e.isEmpty)).length },
           buildVectors 0 ((chunk_metadata documents).zip
             (generate_embeddings_batch api (all_chunks documents)))) := by
        unfold index_pdfs
        rw [if_neg hd, hup]
      exact ⟨_, hok⟩

/-- Witness for `C10_batch_alignment`: a failing endpoint still yields a
same-length batch. -/
theorem C10_batch_alignment_witness :
    (generate_embeddings_batch (fun _ => Except.error "x") [['a']]).length =
      [['a']].length :=
  (C10_batch_alignment (fun _ => Except.error "x") [['a']] []).1
